import Mathlib

/-!
# CMP key generation from a supplied Paillier key: entry point and first round

Shallow embedding of `protocols/cmp/keygen/keygen_secret.go` (`StartFromSecret`) and
`protocols/cmp/keygen/round1_secret.go` (`round1Prime.Finalize`).

* Go values of the collaborating packages (curve, polynomial, paillier, pedersen, hash,
  zk/sch, round) are kept abstract: their types are the fields of `Carriers`, their
  functions the fields of `Externals`.
* `crypto/rand.Reader` is a package-level variable, hence process-wide state.  Every
  collaborator that samples receives the current `Entropy` state and returns the next one:
  those handed `rand.Reader` in the source, and `NewPolynomial`, `GeneratePedersen` and
  `Commit`, which produce fresh coefficients, parameters and a decommitment without being
  handed a reader.  An instance that ignores the state covers a deterministic collaborator.
* The outbound channel `out chan<- *round.Message` is the list of messages written so far.
* A Go result pair `(value, error)` is a Lean pair; a nil error is `none`.
-/

namespace Keygen

/-- Go `party.ID`. -/
abbrev PartyID := String

/-- Go `map[party.ID]V`: finitely many entries, no key twice. -/
abbrev GoMap (V : Type) := AList (fun _ : PartyID => V)

/-- Go `error` values: `errors.New(text)` and `fmt.Errorf(lead + "%w", cause)`. -/
inductive GoError where
  | new (text : String) : GoError
  | wrap (lead : String) (cause : GoError) : GoError
  deriving DecidableEq

/-- The `Error()` string of an error value. -/
def GoError.Error : GoError → String
  | .new text => text
  | .wrap lead cause => lead ++ cause.Error

/-- The `errors.Unwrap` of an error value. -/
def GoError.Unwrap : GoError → Option GoError
  | .new _ => none
  | .wrap _ cause => some cause

/-- Types declared by the collaborating packages. -/
structure Carriers where
  Info : Type
  Pool : Type
  Helper : Type
  Group : Type
  Scalar : Type
  Point : Type
  Polynomial : Type
  Exponent : Type
  RID : Type
  Hash : Type
  Commitment : Type
  Decommitment : Type
  PaillierSecretKey : Type
  PaillierPublicKey : Type
  PedersenParameters : Type
  Modulus : Type
  SafeNat : Type
  SchRandomness : Type
  SchCommitment : Type
  Entropy : Type
  ConfigRest : Type

/-- The part of `config.Public` read here: the party's ECDSA public share. -/
structure Public (Ty : Carriers) where
  ECDSA : Ty.Point

/-- The part of `config.Config` read here; `Rest` stands for every other field. -/
structure Config (Ty : Carriers) where
  ECDSA : Ty.Scalar
  Public : GoMap (Public Ty)
  ChainKey : Ty.RID
  Rest : Ty.ConfigRest

/-- One argument of the variadic `Hash.Commit(data ...interface{})`, tagged by its Go type. -/
inductive CommitItem (Ty : Carriers) where
  | rid (v : Ty.RID) : CommitItem Ty
  | exponent (v : Ty.Exponent) : CommitItem Ty
  | schCommitment (v : Ty.SchCommitment) : CommitItem Ty
  | point (v : Ty.Point) : CommitItem Ty
  | modulus (v : Ty.Modulus) : CommitItem Ty
  | nat (v : Ty.SafeNat) : CommitItem Ty

/-- Content of the round-2 broadcast, as built by the literal
`&broadcast2{Commitment: SelfCommitment}`. -/
structure broadcast2 (Ty : Carriers) where
  Commitment : Ty.Commitment

/-- Modelled from the spec: `round.Message` is declared outside these sources.  A broadcast
message is the content tagged with the sender's party ID and addressed to all parties. -/
structure Message (Ty : Carriers) where
  From : PartyID
  Broadcast : Bool
  Content : broadcast2 Ty

/-- Functions of the collaborating packages, named as they are called in the source. -/
structure Externals (Ty : Carriers) where
  /-- Function `round.NewSession(info, sessionID, pl, auxInfo...)`. -/
  NewSession : Ty.Info → List UInt8 → Ty.Pool → List (Config Ty) → Except GoError Ty.Helper
  /-- Method `helper.Group()`. -/
  Group : Ty.Helper → Ty.Group
  /-- Method `helper.Threshold()`. -/
  Threshold : Ty.Helper → Int
  /-- Method `helper.SelfID()`. -/
  SelfID : Ty.Helper → PartyID
  /-- Method `helper.HashForID(id)`. -/
  HashForID : Ty.Helper → PartyID → Ty.Hash
  /-- Whether the transport refuses the next write to the outbound channel, and with what error. -/
  SendError : Ty.Helper → List (Message Ty) → Option GoError
  /-- Method `group.NewScalar()`. -/
  NewScalar : Ty.Group → Ty.Scalar
  /-- Function `polynomial.NewPolynomial(group, degree, constant)`. -/
  NewPolynomial : Ty.Group → Int → Ty.Scalar → Ty.Entropy → Ty.Polynomial × Ty.Entropy
  /-- Method `poly.Evaluate(x)`. -/
  Evaluate : Ty.Polynomial → Ty.Scalar → Ty.Scalar
  /-- Function `polynomial.NewPolynomialExponent(poly)`. -/
  NewPolynomialExponent : Ty.Polynomial → Ty.Exponent
  /-- Function `sample.Scalar(rand.Reader, group)`. -/
  Scalar : Ty.Entropy → Ty.Group → Ty.Scalar × Ty.Entropy
  /-- Function `sample.ScalarPointPair(rand.Reader, group)`. -/
  ScalarPointPair : Ty.Entropy → Ty.Group → (Ty.Scalar × Ty.Point) × Ty.Entropy
  /-- Method `id.Scalar(group)` of `party.ID`. -/
  IDScalar : PartyID → Ty.Group → Ty.Scalar
  /-- Function `zksch.NewRandomness(rand.Reader, group, gen)`. -/
  NewRandomness : Ty.Entropy → Ty.Group → Option Ty.Point → Ty.SchRandomness × Ty.Entropy
  /-- Method `rand.Commitment()` of the Schnorr randomness. -/
  SchCommitment : Ty.SchRandomness → Ty.SchCommitment
  /-- Function `types.NewRID(rand.Reader)`. -/
  NewRID : Ty.Entropy → Except GoError Ty.RID × Ty.Entropy
  /-- Method `hash.Commit(data...)`. -/
  Commit : Ty.Hash → List (CommitItem Ty) → Ty.Entropy →
    Except GoError (Ty.Commitment × Ty.Decommitment) × Ty.Entropy
  /-- Embedded field `secretKey.PublicKey`. -/
  PublicKey : Ty.PaillierSecretKey → Ty.PaillierPublicKey
  /-- Method `secretKey.GeneratePedersen()`. -/
  GeneratePedersen : Ty.PaillierSecretKey → Ty.Entropy →
    (Ty.PedersenParameters × Ty.SafeNat) × Ty.Entropy
  /-- Method `params.N()`. -/
  PedersenN : Ty.PedersenParameters → Ty.Modulus
  /-- Method `params.S()`. -/
  PedersenS : Ty.PedersenParameters → Ty.SafeNat
  /-- Method `params.T()`. -/
  PedersenT : Ty.PedersenParameters → Ty.SafeNat

/-- Fields of `round1` set by the literals of `StartFromSecret`.  A field a literal leaves out
holds its zero value, `none`. -/
structure round1 (Ty : Carriers) where
  Helper : Ty.Helper
  PreviousSecretECDSA : Option Ty.Scalar
  PreviousPublicSharesECDSA : Option (GoMap Ty.Point)
  PreviousChainKey : Option Ty.RID
  VSSSecret : Ty.Polynomial

/-- Go `type round1Prime struct { *round1; secretKey *paillier.SecretKey }`. -/
structure round1Prime (Ty : Carriers) extends round1 Ty where
  secretKey : Ty.PaillierSecretKey

/-- Fields of `round2` set by the literal at the end of `round1Prime.Finalize`. -/
structure round2 (Ty : Carriers) extends round1 Ty where
  VSSPolynomials : GoMap Ty.Exponent
  Commitments : GoMap Ty.Commitment
  RIDs : GoMap Ty.RID
  ChainKeys : GoMap Ty.RID
  ShareReceived : GoMap Ty.Scalar
  ElGamalPublic : GoMap Ty.Point
  PaillierPublic : GoMap Ty.PaillierPublicKey
  Pedersen : GoMap Ty.PedersenParameters
  ElGamalSecret : Ty.Scalar
  PaillierSecret : Ty.PaillierSecretKey
  PedersenSecret : Ty.SafeNat
  SchnorrRand : Ty.SchRandomness
  Decommitment : Ty.Decommitment

/-- The `round.Session` values these functions return. -/
inductive Session (Ty : Carriers) where
  | round1Prime (r : round1Prime Ty) : Session Ty
  | round2 (r : round2 Ty) : Session Ty

variable {Ty : Carriers}

/-- Modelled from the spec: `Helper.BroadcastMessage` is declared outside these sources.  The
transport either refuses the message, and its error is returned with nothing written, or the
content is written once to the outbound channel, tagged with the sender. -/
def BroadcastMessage (E : Externals Ty) (h : Ty.Helper) (out : List (Message Ty))
    (msg : broadcast2 Ty) : Option GoError × List (Message Ty) :=
  match E.SendError h out with
  | some e => (some e, out)
  | none => (none, out ++ [{ From := E.SelfID h, Broadcast := true, Content := msg }])

/-- The loop `for id, public := range c.Public { PublicSharesECDSA[id] = public.ECDSA }`
over a map created empty by `make`. -/
def PublicSharesECDSA (c : Config Ty) : GoMap Ty.Point :=
  c.Public.entries.foldl (fun m e => m.insert e.1 e.2.ECDSA) ∅

/-- The start function returned by `StartFromSecret(info, pl, c, secretKey)`, applied to
`sessionID`. -/
def StartFromSecret (E : Externals Ty) (info : Ty.Info) (pl : Ty.Pool) (c : Option (Config Ty))
    (secretKey : Ty.PaillierSecretKey) (sessionID : List UInt8) (rnd : Ty.Entropy) :
    (Option (Session Ty) × Option GoError) × Ty.Entropy :=
  let session :=
    match c with
    | none => E.NewSession info sessionID pl []
    | some cfg => E.NewSession info sessionID pl [cfg]
  match session with
  | .error err => ((none, some (.wrap "keygen: " err)), rnd)
  | .ok helper =>
    let group := E.Group helper
    match c with
    | some cfg =>
      let poly := E.NewPolynomial group (E.Threshold helper) (E.NewScalar group) rnd
      ((some (.round1Prime
          { Helper := helper
            PreviousSecretECDSA := some cfg.ECDSA
            PreviousPublicSharesECDSA := some (PublicSharesECDSA cfg)
            PreviousChainKey := some cfg.ChainKey
            VSSSecret := poly.1
            secretKey := secretKey }), none), poly.2)
    | none =>
      let VSSConstant := E.Scalar rnd group
      let VSSSecret := E.NewPolynomial group (E.Threshold helper) VSSConstant.1 VSSConstant.2
      ((some (.round1Prime
          { Helper := helper
            PreviousSecretECDSA := none
            PreviousPublicSharesECDSA := none
            PreviousChainKey := none
            VSSSecret := VSSSecret.1
            secretKey := secretKey }), none), VSSSecret.2)

/-- Result of `Finalize`: the returned `(round.Session, error)`, the outbound channel and the
entropy state afterwards. -/
structure Outcome (Ty : Carriers) where
  session : Session Ty
  err : Option GoError
  out : List (Message Ty)
  rnd : Ty.Entropy

/-- Method `(r *round1Prime) Finalize(out)`. -/
def round1Prime.Finalize (E : Externals Ty) (r : round1Prime Ty) (out : List (Message Ty))
    (rnd : Ty.Entropy) : Outcome Ty :=
  let group := E.Group r.Helper
  let self := E.SelfID r.Helper
  -- generate Paillier and Pedersen
  let PaillierSecret := r.secretKey
  let SelfPaillierPublic := E.PublicKey PaillierSecret
  let ped := E.GeneratePedersen PaillierSecret rnd
  let SelfPedersenPublic := ped.1.1
  let PedersenSecret := ped.1.2
  let eg := E.ScalarPointPair ped.2 group
  let ElGamalSecret := eg.1.1
  let ElGamalPublic := eg.1.2
  -- save our own share
  let SelfShare := E.Evaluate r.VSSSecret (E.IDScalar self group)
  let SelfVSSPolynomial := E.NewPolynomialExponent r.VSSSecret
  -- generate Schnorr randomness
  let sch := E.NewRandomness eg.2 group none
  let SchnorrRand := sch.1
  -- sample RID and chain key
  match E.NewRID sch.2 with
  | (.error _, rnd1) =>
    { session := .round1Prime r, err := some (.new "failed to sample Rho"), out := out,
      rnd := rnd1 }
  | (.ok SelfRID, rnd1) =>
    match E.NewRID rnd1 with
    | (.error _, rnd2) =>
      { session := .round1Prime r, err := some (.new "failed to sample c"), out := out,
        rnd := rnd2 }
    | (.ok chainKey, rnd2) =>
      -- commit to data in message 2
      match E.Commit (E.HashForID r.Helper self)
          [.rid SelfRID, .rid chainKey, .exponent SelfVSSPolynomial,
           .schCommitment (E.SchCommitment SchnorrRand), .point ElGamalPublic,
           .modulus (E.PedersenN SelfPedersenPublic), .nat (E.PedersenS SelfPedersenPublic),
           .nat (E.PedersenT SelfPedersenPublic)] rnd2 with
      | (.error _, rnd3) =>
        { session := .round1Prime r, err := some (.new "failed to commit"), out := out,
          rnd := rnd3 }
      | (.ok (SelfCommitment, Decommitment), rnd3) =>
        let msg : broadcast2 Ty := { Commitment := SelfCommitment }
        match BroadcastMessage E r.Helper out msg with
        | (some err, out1) =>
          { session := .round1Prime r, err := some err, out := out1, rnd := rnd3 }
        | (none, out1) =>
          { session := .round2
              { toround1 := r.toround1
                VSSPolynomials := AList.singleton self SelfVSSPolynomial
                Commitments := AList.singleton self SelfCommitment
                RIDs := AList.singleton self SelfRID
                ChainKeys := AList.singleton self chainKey
                ShareReceived := AList.singleton self SelfShare
                ElGamalPublic := AList.singleton self ElGamalPublic
                PaillierPublic := AList.singleton self SelfPaillierPublic
                Pedersen := AList.singleton self SelfPedersenPublic
                ElGamalSecret := ElGamalSecret
                PaillierSecret := PaillierSecret
                PedersenSecret := PedersenSecret
                SchnorrRand := SchnorrRand
                Decommitment := Decommitment },
            err := none, out := out1, rnd := rnd3 }

/-! ## The sampling calls of `Finalize`, in source order -/

/-- The call `PaillierSecret.GeneratePedersen()`: first to draw on the entropy. -/
def pedersenDraw (E : Externals Ty) (r : round1Prime Ty) (rnd : Ty.Entropy) :
    (Ty.PedersenParameters × Ty.SafeNat) × Ty.Entropy :=
  E.GeneratePedersen r.secretKey rnd

/-- The call `sample.ScalarPointPair(rand.Reader, r.Group())`. -/
def elGamalDraw (E : Externals Ty) (r : round1Prime Ty) (rnd : Ty.Entropy) :
    (Ty.Scalar × Ty.Point) × Ty.Entropy :=
  E.ScalarPointPair (pedersenDraw E r rnd).2 (E.Group r.Helper)

/-- The call `zksch.NewRandomness(rand.Reader, r.Group(), nil)`. -/
def schnorrDraw (E : Externals Ty) (r : round1Prime Ty) (rnd : Ty.Entropy) :
    Ty.SchRandomness × Ty.Entropy :=
  E.NewRandomness (elGamalDraw E r rnd).2 (E.Group r.Helper) none

/-- The first call `types.NewRID(rand.Reader)`, for the RID. -/
def ridDraw (E : Externals Ty) (r : round1Prime Ty) (rnd : Ty.Entropy) :
    Except GoError Ty.RID × Ty.Entropy :=
  E.NewRID (schnorrDraw E r rnd).2

/-- The second call `types.NewRID(rand.Reader)`, for the chain key. -/
def chainKeyDraw (E : Externals Ty) (r : round1Prime Ty) (rnd : Ty.Entropy) :
    Except GoError Ty.RID × Ty.Entropy :=
  E.NewRID (ridDraw E r rnd).2

/-- The ordered argument list `(rid, chain key, F, A, Y, N, s, t)` of a commitment. -/
def commitTuple (E : Externals Ty) (rid chainKey : Ty.RID) (vss : Ty.Exponent)
    (sch : Ty.SchRandomness) (elGamal : Ty.Point) (ped : Ty.PedersenParameters) :
    List (CommitItem Ty) :=
  [.rid rid, .rid chainKey, .exponent vss, .schCommitment (E.SchCommitment sch),
   .point elGamal, .modulus (E.PedersenN ped), .nat (E.PedersenS ped),
   .nat (E.PedersenT ped)]

/-- The message `Finalize` hands to the transport for commitment `c`. -/
def commitmentMessage (E : Externals Ty) (r : round1Prime Ty) (c : Ty.Commitment) :
    Message Ty :=
  { From := E.SelfID r.Helper, Broadcast := true, Content := { Commitment := c } }

/-- The `round2` literal at the end of `Finalize`, for the values sampled on the way. -/
theorem Finalize_round2_inv {E : Externals Ty} {r : round1Prime Ty} {out : List (Message Ty)}
    {rnd : Ty.Entropy} {r2 : round2 Ty}
    (h : (r.Finalize E out rnd).session = .round2 r2) :
    ∃ rid chainKey c d,
      (ridDraw E r rnd).1 = .ok rid ∧
      (chainKeyDraw E r rnd).1 = .ok chainKey ∧
      E.Commit (E.HashForID r.Helper (E.SelfID r.Helper))
        (commitTuple E rid chainKey (E.NewPolynomialExponent r.VSSSecret)
          (schnorrDraw E r rnd).1 (elGamalDraw E r rnd).1.2 (pedersenDraw E r rnd).1.1)
        (chainKeyDraw E r rnd).2 = (.ok (c, d), (r.Finalize E out rnd).rnd) ∧
      E.SendError r.Helper out = none ∧
      (r.Finalize E out rnd).err = none ∧
      (r.Finalize E out rnd).out = out ++ [commitmentMessage E r c] ∧
      r2 =
        { toround1 := r.toround1
          VSSPolynomials := AList.singleton (E.SelfID r.Helper) (E.NewPolynomialExponent r.VSSSecret)
          Commitments := AList.singleton (E.SelfID r.Helper) c
          RIDs := AList.singleton (E.SelfID r.Helper) rid
          ChainKeys := AList.singleton (E.SelfID r.Helper) chainKey
          ShareReceived := AList.singleton (E.SelfID r.Helper)
            (E.Evaluate r.VSSSecret (E.IDScalar (E.SelfID r.Helper) (E.Group r.Helper)))
          ElGamalPublic := AList.singleton (E.SelfID r.Helper) (elGamalDraw E r rnd).1.2
          PaillierPublic := AList.singleton (E.SelfID r.Helper) (E.PublicKey r.secretKey)
          Pedersen := AList.singleton (E.SelfID r.Helper) (pedersenDraw E r rnd).1.1
          ElGamalSecret := (elGamalDraw E r rnd).1.1
          PaillierSecret := r.secretKey
          PedersenSecret := (pedersenDraw E r rnd).1.2
          SchnorrRand := (schnorrDraw E r rnd).1
          Decommitment := d } := by
  generalize ho : r.Finalize E out rnd = o at h ⊢
  simp only [round1Prime.Finalize] at ho
  split at ho
  · subst ho; simp at h
  · rename_i rid rnd1 h1
    split at ho
    · subst ho; simp at h
    · rename_i ck rnd2 h2
      split at ho
      · subst ho; simp at h
      · rename_i c d rnd3 h3
        split at ho
        · subst ho; simp at h
        · rename_i out1 h4
          subst ho
          simp only [Session.round2.injEq] at h
          refine ⟨rid, ck, c, d, ?_, ?_, ?_, ?_, rfl, ?_, h.symm⟩
          · simp [ridDraw, schnorrDraw, elGamalDraw, pedersenDraw, h1]
          · simp [chainKeyDraw, ridDraw, schnorrDraw, elGamalDraw, pedersenDraw, h1, h2]
          · simp only [chainKeyDraw, ridDraw, schnorrDraw, elGamalDraw, pedersenDraw, h1, h2,
              commitTuple]
            exact h3
          · simp only [BroadcastMessage] at h4
            split at h4
            · simp at h4
            · assumption
          · simp only [BroadcastMessage] at h4
            split at h4
            · simp at h4
            · simp only [Prod.mk.injEq] at h4
              simp [← h4.2, commitmentMessage]

/-- A run of `Finalize` that returns a nil error returns a `round2`. -/
theorem Finalize_ok_round2 {E : Externals Ty} {r : round1Prime Ty} {out : List (Message Ty)}
    {rnd : Ty.Entropy} (h : (r.Finalize E out rnd).err = none) :
    ∃ r2, (r.Finalize E out rnd).session = .round2 r2 := by
  generalize ho : r.Finalize E out rnd = o at h ⊢
  simp only [round1Prime.Finalize] at ho
  split at ho
  · subst ho; simp at h
  · split at ho
    · subst ho; simp at h
    · split at ho
      · subst ho; simp at h
      · split at ho
        · subst ho; simp at h
        · subst ho; exact ⟨_, rfl⟩

/-! ## A small instance on which the definitions are evaluated -/

/-- Carriers of the instance: numbers, and lists of numbers for polynomials and entropy. -/
abbrev toyCarriers : Carriers where
  Info := Option (PartyID × Int)
  Pool := Unit
  Helper := PartyID × Int
  Group := Unit
  Scalar := Nat
  Point := Nat
  Polynomial := List Nat
  Exponent := List Nat
  RID := Nat
  Hash := PartyID
  Commitment := List Nat
  Decommitment := Nat
  PaillierSecretKey := Nat
  PaillierPublicKey := Nat
  PedersenParameters := Nat × Nat × Nat
  Modulus := Nat
  SafeNat := Nat
  SchRandomness := Nat
  SchCommitment := Nat
  Entropy := List Nat
  ConfigRest := Unit

/-- Read one number from the entropy; an exhausted source yields zero. -/
def toyRead (rnd : List Nat) : Nat × List Nat :=
  (rnd.headD 0, rnd.tail)

/-- The number a commitment item is written as. -/
def toyItem : CommitItem toyCarriers → Nat
  | .rid v => v
  | .exponent v => List.sum v
  | .schCommitment v => v
  | .point v => v
  | .modulus v => v
  | .nat v => v

/-- Collaborators of the instance.  Session construction fails on an absent topology, RID
sampling and committing fail on exhausted entropy, the channel holds one message. -/
def toyExternals : Externals toyCarriers where
  NewSession := fun info _ _ _ =>
    match info with
    | none => .error (.new "session: invalid party set")
    | some h => .ok h
  Group := fun _ => ()
  Threshold := fun h => h.2
  SelfID := fun h => h.1
  HashForID := fun _ id => id
  SendError := fun _ out => if out.length = 0 then none else some (.new "channel full")
  NewScalar := fun _ => (0 : Nat)
  NewPolynomial := fun _ degree constant rnd =>
    ((constant : Nat) :: List.take degree.toNat rnd, List.drop degree.toNat rnd)
  Evaluate := fun poly x => List.foldr (fun (a : Nat) (acc : Nat) => a + x * acc) 0 poly
  NewPolynomialExponent := fun poly => List.map (fun (a : Nat) => 2 * a) poly
  Scalar := fun rnd _ => toyRead rnd
  ScalarPointPair := fun rnd _ => (((toyRead rnd).1, 2 * (toyRead rnd).1), (toyRead rnd).2)
  IDScalar := fun id _ => id.length
  NewRandomness := fun rnd _ _ => toyRead rnd
  SchCommitment := fun a => 2 * a
  NewRID := fun rnd =>
    match rnd with
    | [] => (.error (.new "EOF"), [])
    | x :: rest => (.ok x, rest)
  Commit := fun _ items rnd =>
    match rnd with
    | [] => (.error (.new "EOF"), [])
    | d :: rest => (.ok (List.map toyItem items ++ [d], d), rest)
  PublicKey := fun sk => sk * sk
  GeneratePedersen := fun sk rnd => (((sk * sk, (toyRead rnd).1, 3 * (toyRead rnd).1), sk), (toyRead rnd).2)
  PedersenN := fun p => p.1
  PedersenS := fun p => p.2.1
  PedersenT := fun p => p.2.2

/-- A prior configuration of the instance: chain key 42, two public shares. -/
def toyConfig : Config toyCarriers where
  ECDSA := (11 : Nat)
  Public := (AList.singleton "a" ⟨(5 : Nat)⟩).insert "b" ⟨(6 : Nat)⟩
  ChainKey := (42 : Nat)
  Rest := ()

/-- The refresh-mode round of party `a`, threshold 1, as `StartFromSecret` builds it from
`toyConfig` with entropy `[9]`. -/
def toyRefreshRound : round1Prime toyCarriers where
  Helper := ("a", 1)
  PreviousSecretECDSA := some (11 : Nat)
  PreviousPublicSharesECDSA := some (PublicSharesECDSA toyConfig)
  PreviousChainKey := some (42 : Nat)
  VSSSecret := [0, 9]
  secretKey := (7 : Nat)

/-! ## Go maps -/

/-- Reading a one-entry map literal at its key. -/
theorem lookup_singleton_self {V : Type} (k : PartyID) (v : V) :
    (AList.singleton k v : GoMap V).lookup k = some v := by
  rw [← AList.insert_empty, AList.lookup_insert]

/-- Assigning `m[id] = public.ECDSA` for every entry of a list without repeated keys: a key of
the list reads as its entry's share, any other key as it read before. -/
theorem lookup_foldl_insert (l : List (Sigma fun _ : PartyID => Public Ty))
    (m : GoMap Ty.Point) (id : PartyID) (hl : l.NodupKeys) :
    (l.foldl (fun m e => m.insert e.1 e.2.ECDSA) m).lookup id
      = match l.dlookup id with
        | some p => some p.ECDSA
        | none => m.lookup id := by
  induction l generalizing m with
  | nil => simp
  | cons e l ih =>
    obtain ⟨k, p⟩ := e
    rw [List.nodupKeys_cons] at hl
    rw [List.foldl_cons, ih _ hl.2]
    by_cases hk : id = k
    · subst hk
      have hnone : l.dlookup id = none := List.dlookup_eq_none.mpr hl.1
      simp [hnone, AList.lookup_insert]
    · rw [List.dlookup_cons_ne _ _ hk]
      cases hd : l.dlookup id with
      | some q => simp
      | none => simp [AList.lookup_insert_ne hk]

/-- The map built by the loop reads, at every party ID, as the ECDSA share of that party's
entry in `c.Public`. -/
theorem lookup_PublicSharesECDSA (c : Config Ty) (id : PartyID) :
    (PublicSharesECDSA c).lookup id = (c.Public.lookup id).map Public.ECDSA := by
  unfold PublicSharesECDSA
  rw [lookup_foldl_insert _ _ _ c.Public.nodupKeys]
  simp only [AList.lookup, AList.lookup_empty]
  cases c.Public.entries.dlookup id <;> rfl

/-! ## The entry point `StartFromSecret` -/

/-- Fresh mode after a successful session construction. -/
theorem StartFromSecret_fresh {E : Externals Ty} {info : Ty.Info} {pl : Ty.Pool}
    {sessionID : List UInt8} {helper : Ty.Helper} (secretKey : Ty.PaillierSecretKey)
    (rnd : Ty.Entropy) (hs : E.NewSession info sessionID pl [] = .ok helper) :
    StartFromSecret E info pl none secretKey sessionID rnd
      = ((some (.round1Prime
          { Helper := helper
            PreviousSecretECDSA := none
            PreviousPublicSharesECDSA := none
            PreviousChainKey := none
            VSSSecret := (E.NewPolynomial (E.Group helper) (E.Threshold helper)
              (E.Scalar rnd (E.Group helper)).1 (E.Scalar rnd (E.Group helper)).2).1
            secretKey := secretKey }), none),
        (E.NewPolynomial (E.Group helper) (E.Threshold helper)
          (E.Scalar rnd (E.Group helper)).1 (E.Scalar rnd (E.Group helper)).2).2) := by
  simp only [StartFromSecret, hs]

/-- Refresh mode after a successful session construction. -/
theorem StartFromSecret_refresh {E : Externals Ty} {info : Ty.Info} {pl : Ty.Pool}
    {sessionID : List UInt8} {helper : Ty.Helper} (cfg : Config Ty)
    (secretKey : Ty.PaillierSecretKey) (rnd : Ty.Entropy)
    (hs : E.NewSession info sessionID pl [cfg] = .ok helper) :
    StartFromSecret E info pl (some cfg) secretKey sessionID rnd
      = ((some (.round1Prime
          { Helper := helper
            PreviousSecretECDSA := some cfg.ECDSA
            PreviousPublicSharesECDSA := some (PublicSharesECDSA cfg)
            PreviousChainKey := some cfg.ChainKey
            VSSSecret := (E.NewPolynomial (E.Group helper) (E.Threshold helper)
              (E.NewScalar (E.Group helper)) rnd).1
            secretKey := secretKey }), none),
        (E.NewPolynomial (E.Group helper) (E.Threshold helper)
          (E.NewScalar (E.Group helper)) rnd).2) := by
  simp only [StartFromSecret, hs]

/-- C2: when session construction succeeds, the round returned by `StartFromSecret` holds as
`VSSSecret` the result of `polynomial.NewPolynomial` called with the session's group and
threshold as degree; its constant argument is `group.NewScalar()` when a prior config is
supplied, and the scalar drawn by `sample.Scalar` when the config is nil. -/
theorem StartFromSecret_VSSSecret (E : Externals Ty) (info : Ty.Info) (pl : Ty.Pool)
    (c : Option (Config Ty)) (secretKey : Ty.PaillierSecretKey) (sessionID : List UInt8)
    (rnd : Ty.Entropy) (helper : Ty.Helper)
    (hs : E.NewSession info sessionID pl c.toList = .ok helper) :
    ∃ r rnd1, StartFromSecret E info pl c secretKey sessionID rnd
        = ((some (.round1Prime r), none), rnd1) ∧
      r.Helper = helper ∧
      (c.isSome = true → r.VSSSecret
        = (E.NewPolynomial (E.Group helper) (E.Threshold helper)
            (E.NewScalar (E.Group helper)) rnd).1) ∧
      (c = none → r.VSSSecret
        = (E.NewPolynomial (E.Group helper) (E.Threshold helper)
            (E.Scalar rnd (E.Group helper)).1 (E.Scalar rnd (E.Group helper)).2).1) := by
  cases c with
  | none =>
    simp only [Option.toList] at hs
    exact ⟨_, _, StartFromSecret_fresh secretKey rnd hs, rfl, by simp, fun _ => rfl⟩
  | some cfg =>
    simp only [Option.toList] at hs
    exact ⟨_, _, StartFromSecret_refresh cfg secretKey rnd hs, rfl, fun _ => rfl, by simp⟩

/-- Witness of `StartFromSecret_VSSSecret`: refresh mode of the small instance. -/
theorem StartFromSecret_VSSSecret_witness :
    ∃ r rnd1, StartFromSecret toyExternals (some ("a", 1)) () (some toyConfig) (7 : Nat) [] [9]
        = ((some (.round1Prime r), none), rnd1) ∧
      r.Helper = ("a", 1) ∧
      ((some toyConfig).isSome = true → r.VSSSecret
        = (toyExternals.NewPolynomial (toyExternals.Group ("a", 1))
            (toyExternals.Threshold ("a", 1))
            (toyExternals.NewScalar (toyExternals.Group ("a", 1))) [9]).1) ∧
      (some toyConfig = none → r.VSSSecret
        = (toyExternals.NewPolynomial (toyExternals.Group ("a", 1))
            (toyExternals.Threshold ("a", 1))
            (toyExternals.Scalar [9] (toyExternals.Group ("a", 1))).1
            (toyExternals.Scalar [9] (toyExternals.Group ("a", 1))).2).1) :=
  StartFromSecret_VSSSecret toyExternals (some ("a", 1)) () (some toyConfig) (7 : Nat) [] [9]
    ("a", 1) rfl

/-- C3: when session construction succeeds and a prior config `cfg` is supplied, the round
built by `StartFromSecret` has `PreviousSecretECDSA = cfg.ECDSA`,
`PreviousChainKey = cfg.ChainKey`, and a `PreviousPublicSharesECDSA` whose keys are exactly
the keys of `cfg.Public` and which maps each of them to that party's ECDSA public share;
when the config is nil the three fields are left empty. -/
theorem StartFromSecret_prior_state (E : Externals Ty) (info : Ty.Info) (pl : Ty.Pool)
    (c : Option (Config Ty)) (secretKey : Ty.PaillierSecretKey) (sessionID : List UInt8)
    (rnd : Ty.Entropy) (helper : Ty.Helper)
    (hs : E.NewSession info sessionID pl c.toList = .ok helper) :
    ∃ r rnd1, StartFromSecret E info pl c secretKey sessionID rnd
        = ((some (.round1Prime r), none), rnd1) ∧
      (∀ cfg, c = some cfg →
        r.PreviousSecretECDSA = some cfg.ECDSA ∧
        r.PreviousChainKey = some cfg.ChainKey ∧
        ∃ shares, r.PreviousPublicSharesECDSA = some shares ∧
          (∀ id, id ∈ shares ↔ id ∈ cfg.Public) ∧
          (∀ id, shares.lookup id = (cfg.Public.lookup id).map Public.ECDSA)) ∧
      (c = none →
        r.PreviousSecretECDSA = none ∧ r.PreviousPublicSharesECDSA = none ∧
        r.PreviousChainKey = none) := by
  cases c with
  | none =>
    simp only [Option.toList] at hs
    exact ⟨_, _, StartFromSecret_fresh secretKey rnd hs, by simp, fun _ => ⟨rfl, rfl, rfl⟩⟩
  | some cfg =>
    simp only [Option.toList] at hs
    refine ⟨_, _, StartFromSecret_refresh cfg secretKey rnd hs, ?_, by simp⟩
    intro cfg1 hcfg
    cases hcfg
    refine ⟨rfl, rfl, _, rfl, ?_, lookup_PublicSharesECDSA cfg⟩
    intro id
    rw [← AList.lookup_isSome, ← AList.lookup_isSome, lookup_PublicSharesECDSA]
    cases AList.lookup id cfg.Public <;> rfl

/-- Witness of `StartFromSecret_prior_state`: refresh mode of the small instance. -/
theorem StartFromSecret_prior_state_witness :
    ∃ r rnd1, StartFromSecret toyExternals (some ("a", 1)) () (some toyConfig) (7 : Nat) [] [9]
        = ((some (.round1Prime r), none), rnd1) ∧
      (∀ cfg, some toyConfig = some cfg →
        r.PreviousSecretECDSA = some cfg.ECDSA ∧
        r.PreviousChainKey = some cfg.ChainKey ∧
        ∃ shares, r.PreviousPublicSharesECDSA = some shares ∧
          (∀ id, id ∈ shares ↔ id ∈ cfg.Public) ∧
          (∀ id, shares.lookup id = (cfg.Public.lookup id).map Public.ECDSA)) ∧
      (some toyConfig = none →
        r.PreviousSecretECDSA = none ∧ r.PreviousPublicSharesECDSA = none ∧
        r.PreviousChainKey = none) :=
  StartFromSecret_prior_state toyExternals (some ("a", 1)) () (some toyConfig) (7 : Nat) [] [9]
    ("a", 1) rfl

/-- C8: the start function calls `round.NewSession` with the prior config as auxiliary
argument exactly when one is supplied.  If that call fails with `err`, the start function
returns no round and the error `fmt.Errorf("keygen: %w", err)`, whose text is `"keygen: "`
followed by the text of `err` and which unwraps to `err`.  Otherwise it returns a
`round1Prime` holding the supplied Paillier secret key and a nil error.  So the start
function fails exactly when session construction fails, in both modes. -/
theorem StartFromSecret_fails_iff (E : Externals Ty) (info : Ty.Info) (pl : Ty.Pool)
    (c : Option (Config Ty)) (secretKey : Ty.PaillierSecretKey) (sessionID : List UInt8)
    (rnd : Ty.Entropy) :
    (∀ err, E.NewSession info sessionID pl c.toList = .error err →
      StartFromSecret E info pl c secretKey sessionID rnd
          = ((none, some (.wrap "keygen: " err)), rnd) ∧
        (GoError.wrap "keygen: " err).Error = "keygen: " ++ err.Error ∧
        (GoError.wrap "keygen: " err).Unwrap = some err) ∧
    (∀ helper, E.NewSession info sessionID pl c.toList = .ok helper →
      ∃ r rnd1, StartFromSecret E info pl c secretKey sessionID rnd
          = ((some (.round1Prime r), none), rnd1) ∧
        r.secretKey = secretKey ∧ r.Helper = helper) ∧
    ((StartFromSecret E info pl c secretKey sessionID rnd).1.2 ≠ none ↔
      ∃ err, E.NewSession info sessionID pl c.toList = .error err) := by
  cases c with
  | none =>
    simp only [Option.toList]
    refine ⟨fun err h => ⟨by simp only [StartFromSecret, h], rfl, rfl⟩,
      fun helper h => ⟨_, _, StartFromSecret_fresh secretKey rnd h, rfl, rfl⟩, ?_⟩
    cases h : E.NewSession info sessionID pl [] <;> simp [StartFromSecret, h]
  | some cfg =>
    simp only [Option.toList]
    refine ⟨fun err h => ⟨by simp only [StartFromSecret, h], rfl, rfl⟩,
      fun helper h => ⟨_, _, StartFromSecret_refresh cfg secretKey rnd h, rfl, rfl⟩, ?_⟩
    cases h : E.NewSession info sessionID pl [cfg] <;> simp [StartFromSecret, h]

/-- Witness of `StartFromSecret_fails_iff`: a failing session construction of the small
instance, in fresh mode. -/
theorem StartFromSecret_fails_iff_witness :
    StartFromSecret toyExternals none () none (7 : Nat) [] [9]
        = ((none, some (.wrap "keygen: " (.new "session: invalid party set"))), [9]) ∧
      (GoError.wrap "keygen: " (.new "session: invalid party set")).Error
        = "keygen: " ++ (GoError.new "session: invalid party set").Error ∧
      (GoError.wrap "keygen: " (.new "session: invalid party set")).Unwrap
        = some (.new "session: invalid party set") :=
  (StartFromSecret_fails_iff toyExternals none () none (7 : Nat) [] [9]).1
    (.new "session: invalid party set") rfl

/-! ## The round `round1Prime.Finalize` -/

/-- C1, refuted as stated: the refresh-mode round that `StartFromSecret` builds from a prior
config with chain key 42 carries that key as `PreviousChainKey`, yet a successful `Finalize`
on entropy `1, 2, 3, 4, 5, 6, 7` stores under the self ID in `round2.ChainKeys` the number 5
read by the second `types.NewRID`, not the prior chain key. -/
theorem Finalize_refresh_chainKey_resampled :
    StartFromSecret toyExternals (some ("a", 1)) () (some toyConfig) (7 : Nat) [] [9]
        = ((some (.round1Prime toyRefreshRound), none), []) ∧
      toyRefreshRound.PreviousChainKey = some toyConfig.ChainKey ∧
      (toyRefreshRound.Finalize toyExternals [] [1, 2, 3, 4, 5, 6, 7]).err = none ∧
      ∃ r2, (toyRefreshRound.Finalize toyExternals [] [1, 2, 3, 4, 5, 6, 7]).session
          = .round2 r2 ∧
        r2.ChainKeys.lookup "a" = some (5 : Nat) ∧
        r2.ChainKeys.lookup "a" ≠ some toyConfig.ChainKey :=
  ⟨rfl, rfl, rfl, _, rfl, rfl, by decide⟩

/-- C1, amended: in fresh and in refresh mode alike, a successful `Finalize` stores under the
self ID in `round2.ChainKeys` the value returned by its second `types.NewRID` call (the one
after the RID's), and binds that value as the second item of the commitment; the chain key
carried over from a prior config is not read and stays, unchanged, in `PreviousChainKey`. -/
theorem Finalize_chainKey_sampled (E : Externals Ty) (r : round1Prime Ty)
    (out : List (Message Ty)) (rnd : Ty.Entropy)
    (hok : (r.Finalize E out rnd).err = none) :
    ∃ r2 rid chainKey c,
      (r.Finalize E out rnd).session = .round2 r2 ∧
      (ridDraw E r rnd).1 = .ok rid ∧
      (E.NewRID (ridDraw E r rnd).2).1 = .ok chainKey ∧
      r2.ChainKeys = AList.singleton (E.SelfID r.Helper) chainKey ∧
      r2.ChainKeys.lookup (E.SelfID r.Helper) = some chainKey ∧
      (E.Commit (E.HashForID r.Helper (E.SelfID r.Helper))
          [.rid rid, .rid chainKey, .exponent (E.NewPolynomialExponent r.VSSSecret),
           .schCommitment (E.SchCommitment r2.SchnorrRand),
           .point (elGamalDraw E r rnd).1.2,
           .modulus (E.PedersenN (pedersenDraw E r rnd).1.1),
           .nat (E.PedersenS (pedersenDraw E r rnd).1.1),
           .nat (E.PedersenT (pedersenDraw E r rnd).1.1)]
          (E.NewRID (ridDraw E r rnd).2).2).1 = .ok (c, r2.Decommitment) ∧
      r2.Commitments.lookup (E.SelfID r.Helper) = some c ∧
      r2.PreviousChainKey = r.PreviousChainKey := by
  obtain ⟨r2, hs⟩ := Finalize_ok_round2 hok
  obtain ⟨rid, ck, c, d, h1, h2, h3, _, _, _, h7⟩ := Finalize_round2_inv hs
  subst h7
  refine ⟨_, rid, ck, c, hs, h1, h2, rfl, lookup_singleton_self _ _, ?_,
    lookup_singleton_self _ _, rfl⟩
  have h3a := congrArg Prod.fst h3
  exact h3a

/-- Witness of `Finalize_chainKey_sampled`: the refresh-mode round of the small instance. -/
theorem Finalize_chainKey_sampled_witness :
    (toyRefreshRound.Finalize toyExternals [] [1, 2, 3, 4, 5, 6, 7]).err = none ∧
    ∃ r2 rid chainKey c,
      (toyRefreshRound.Finalize toyExternals [] [1, 2, 3, 4, 5, 6, 7]).session = .round2 r2 ∧
      (ridDraw toyExternals toyRefreshRound [1, 2, 3, 4, 5, 6, 7]).1 = .ok rid ∧
      (toyExternals.NewRID (ridDraw toyExternals toyRefreshRound [1, 2, 3, 4, 5, 6, 7]).2).1
        = .ok chainKey ∧
      r2.ChainKeys = AList.singleton (toyExternals.SelfID toyRefreshRound.Helper) chainKey ∧
      r2.ChainKeys.lookup (toyExternals.SelfID toyRefreshRound.Helper) = some chainKey ∧
      (toyExternals.Commit
          (toyExternals.HashForID toyRefreshRound.Helper
            (toyExternals.SelfID toyRefreshRound.Helper))
          [.rid rid, .rid chainKey,
           .exponent (toyExternals.NewPolynomialExponent toyRefreshRound.VSSSecret),
           .schCommitment (toyExternals.SchCommitment r2.SchnorrRand),
           .point (elGamalDraw toyExternals toyRefreshRound [1, 2, 3, 4, 5, 6, 7]).1.2,
           .modulus (toyExternals.PedersenN
             (pedersenDraw toyExternals toyRefreshRound [1, 2, 3, 4, 5, 6, 7]).1.1),
           .nat (toyExternals.PedersenS
             (pedersenDraw toyExternals toyRefreshRound [1, 2, 3, 4, 5, 6, 7]).1.1),
           .nat (toyExternals.PedersenT
             (pedersenDraw toyExternals toyRefreshRound [1, 2, 3, 4, 5, 6, 7]).1.1)]
          (toyExternals.NewRID
            (ridDraw toyExternals toyRefreshRound [1, 2, 3, 4, 5, 6, 7]).2).2).1
        = .ok (c, r2.Decommitment) ∧
      r2.Commitments.lookup (toyExternals.SelfID toyRefreshRound.Helper) = some c ∧
      r2.PreviousChainKey = toyRefreshRound.PreviousChainKey :=
  ⟨by decide, Finalize_chainKey_sampled toyExternals toyRefreshRound [] [1, 2, 3, 4, 5, 6, 7]
    (by decide)⟩

/-- C4: after a successful `Finalize`, each of the eight per-party maps of the returned
`round2` has exactly one key, the local self ID. -/
theorem Finalize_maps_single_self (E : Externals Ty) (r : round1Prime Ty)
    (out : List (Message Ty)) (rnd : Ty.Entropy)
    (hok : (r.Finalize E out rnd).err = none) :
    ∃ r2, (r.Finalize E out rnd).session = .round2 r2 ∧
      E.SelfID r2.Helper = E.SelfID r.Helper ∧
      r2.VSSPolynomials.keys = [E.SelfID r.Helper] ∧
      r2.Commitments.keys = [E.SelfID r.Helper] ∧
      r2.RIDs.keys = [E.SelfID r.Helper] ∧
      r2.ChainKeys.keys = [E.SelfID r.Helper] ∧
      r2.ShareReceived.keys = [E.SelfID r.Helper] ∧
      r2.ElGamalPublic.keys = [E.SelfID r.Helper] ∧
      r2.PaillierPublic.keys = [E.SelfID r.Helper] ∧
      r2.Pedersen.keys = [E.SelfID r.Helper] := by
  obtain ⟨r2, hs⟩ := Finalize_ok_round2 hok
  obtain ⟨rid, ck, c, d, _, _, _, _, _, _, h7⟩ := Finalize_round2_inv hs
  subst h7
  exact ⟨_, hs, rfl, rfl, rfl, rfl, rfl, rfl, rfl, rfl, rfl⟩

/-- Witness of `Finalize_maps_single_self`: the refresh-mode round of the small instance. -/
theorem Finalize_maps_single_self_witness :
    (toyRefreshRound.Finalize toyExternals [] [1, 2, 3, 4, 5, 6, 7]).err = none ∧
    ∃ r2, (toyRefreshRound.Finalize toyExternals [] [1, 2, 3, 4, 5, 6, 7]).session
        = .round2 r2 ∧
      toyExternals.SelfID r2.Helper = toyExternals.SelfID toyRefreshRound.Helper ∧
      r2.VSSPolynomials.keys = [toyExternals.SelfID toyRefreshRound.Helper] ∧
      r2.Commitments.keys = [toyExternals.SelfID toyRefreshRound.Helper] ∧
      r2.RIDs.keys = [toyExternals.SelfID toyRefreshRound.Helper] ∧
      r2.ChainKeys.keys = [toyExternals.SelfID toyRefreshRound.Helper] ∧
      r2.ShareReceived.keys = [toyExternals.SelfID toyRefreshRound.Helper] ∧
      r2.ElGamalPublic.keys = [toyExternals.SelfID toyRefreshRound.Helper] ∧
      r2.PaillierPublic.keys = [toyExternals.SelfID toyRefreshRound.Helper] ∧
      r2.Pedersen.keys = [toyExternals.SelfID toyRefreshRound.Helper] :=
  ⟨by decide, Finalize_maps_single_self toyExternals toyRefreshRound [] [1, 2, 3, 4, 5, 6, 7]
    (by decide)⟩

/-- C5: after a successful `Finalize`, `round2.ShareReceived[self]` is the round's `VSSSecret`
evaluated at the self ID's scalar, `round2.VSSPolynomials[self]` is the exponent form of that
same `VSSSecret`, and evaluating the polynomial held by `round2` at the self index again gives
the stored share. -/
theorem Finalize_self_share (E : Externals Ty) (r : round1Prime Ty)
    (out : List (Message Ty)) (rnd : Ty.Entropy)
    (hok : (r.Finalize E out rnd).err = none) :
    ∃ r2, (r.Finalize E out rnd).session = .round2 r2 ∧
      r2.ShareReceived.lookup (E.SelfID r.Helper)
        = some (E.Evaluate r.VSSSecret (E.IDScalar (E.SelfID r.Helper) (E.Group r.Helper))) ∧
      r2.VSSPolynomials.lookup (E.SelfID r.Helper)
        = some (E.NewPolynomialExponent r.VSSSecret) ∧
      r2.VSSSecret = r.VSSSecret ∧
      r2.ShareReceived.lookup (E.SelfID r2.Helper)
        = some (E.Evaluate r2.VSSSecret (E.IDScalar (E.SelfID r2.Helper) (E.Group r2.Helper))) := by
  obtain ⟨r2, hs⟩ := Finalize_ok_round2 hok
  obtain ⟨rid, ck, c, d, _, _, _, _, _, _, h7⟩ := Finalize_round2_inv hs
  subst h7
  exact ⟨_, hs, lookup_singleton_self _ _, lookup_singleton_self _ _, rfl,
    lookup_singleton_self _ _⟩

/-- Witness of `Finalize_self_share`: the refresh-mode round of the small instance. -/
theorem Finalize_self_share_witness :
    (toyRefreshRound.Finalize toyExternals [] [1, 2, 3, 4, 5, 6, 7]).err = none ∧
    ∃ r2, (toyRefreshRound.Finalize toyExternals [] [1, 2, 3, 4, 5, 6, 7]).session
        = .round2 r2 ∧
      r2.ShareReceived.lookup (toyExternals.SelfID toyRefreshRound.Helper)
        = some (toyExternals.Evaluate toyRefreshRound.VSSSecret
            (toyExternals.IDScalar (toyExternals.SelfID toyRefreshRound.Helper)
              (toyExternals.Group toyRefreshRound.Helper))) ∧
      r2.VSSPolynomials.lookup (toyExternals.SelfID toyRefreshRound.Helper)
        = some (toyExternals.NewPolynomialExponent toyRefreshRound.VSSSecret) ∧
      r2.VSSSecret = toyRefreshRound.VSSSecret ∧
      r2.ShareReceived.lookup (toyExternals.SelfID r2.Helper)
        = some (toyExternals.Evaluate r2.VSSSecret
            (toyExternals.IDScalar (toyExternals.SelfID r2.Helper)
              (toyExternals.Group r2.Helper))) :=
  ⟨by decide, Finalize_self_share toyExternals toyRefreshRound [] [1, 2, 3, 4, 5, 6, 7]
    (by decide)⟩

/-- C6: a successful `Finalize` appends exactly one message to the outbound channel: a
broadcast from the self ID whose content is the one-field record holding the commitment
stored in `round2.Commitments[self]`.  The message is fixed by the sender and the commitment
alone: any other successful run of the same session that ends with the same commitment, on
whatever secrets and entropy, leaves the same outbound channel. -/
theorem Finalize_broadcasts_commitment_only (E : Externals Ty) (r : round1Prime Ty)
    (out : List (Message Ty)) (rnd : Ty.Entropy)
    (hok : (r.Finalize E out rnd).err = none) :
    ∃ r2 c, (r.Finalize E out rnd).session = .round2 r2 ∧
      r2.Commitments.lookup (E.SelfID r.Helper) = some c ∧
      (r.Finalize E out rnd).out
        = out ++ [{ From := E.SelfID r.Helper, Broadcast := true,
                    Content := { Commitment := c } }] ∧
      (r.Finalize E out rnd).out.length = out.length + 1 ∧
      (∀ (r1 : round1Prime Ty) (rnd1 : Ty.Entropy) (r3 : round2 Ty),
        r1.Helper = r.Helper →
        (r1.Finalize E out rnd1).session = .round2 r3 →
        r3.Commitments.lookup (E.SelfID r.Helper) = some c →
        (r1.Finalize E out rnd1).out = (r.Finalize E out rnd).out) := by
  obtain ⟨r2, hs⟩ := Finalize_ok_round2 hok
  obtain ⟨rid, ck, c, d, _, _, _, _, _, h6, h7⟩ := Finalize_round2_inv hs
  subst h7
  refine ⟨_, c, hs, lookup_singleton_self _ _, h6, ?_, ?_⟩
  · rw [h6]
    simp
  · intro r1 rnd1 r3 hh hs1 hc
    obtain ⟨rid1, ck1, c1, d1, _, _, _, _, _, k6, k7⟩ := Finalize_round2_inv hs1
    subst k7
    rw [hh, lookup_singleton_self] at hc
    cases hc
    rw [h6, k6]
    simp only [commitmentMessage, hh]

/-- Witness of `Finalize_broadcasts_commitment_only`: the refresh-mode round of the small
instance. -/
theorem Finalize_broadcasts_commitment_only_witness :
    (toyRefreshRound.Finalize toyExternals [] [1, 2, 3, 4, 5, 6, 7]).err = none ∧
    ∃ r2 c, (toyRefreshRound.Finalize toyExternals [] [1, 2, 3, 4, 5, 6, 7]).session
        = .round2 r2 ∧
      r2.Commitments.lookup (toyExternals.SelfID toyRefreshRound.Helper) = some c ∧
      (toyRefreshRound.Finalize toyExternals [] [1, 2, 3, 4, 5, 6, 7]).out
        = [] ++ [{ From := toyExternals.SelfID toyRefreshRound.Helper, Broadcast := true,
                   Content := { Commitment := c } }] ∧
      (toyRefreshRound.Finalize toyExternals [] [1, 2, 3, 4, 5, 6, 7]).out.length
        = ([] : List (Message toyCarriers)).length + 1 ∧
      (∀ (r1 : round1Prime toyCarriers) (rnd1 : toyCarriers.Entropy) (r3 : round2 toyCarriers),
        r1.Helper = toyRefreshRound.Helper →
        (r1.Finalize toyExternals [] rnd1).session = .round2 r3 →
        r3.Commitments.lookup (toyExternals.SelfID toyRefreshRound.Helper) = some c →
        (r1.Finalize toyExternals [] rnd1).out
          = (toyRefreshRound.Finalize toyExternals [] [1, 2, 3, 4, 5, 6, 7]).out) :=
  ⟨by decide, Finalize_broadcasts_commitment_only toyExternals toyRefreshRound []
    [1, 2, 3, 4, 5, 6, 7] (by decide)⟩

/-- C9: in a successful `Finalize`, the commitment stored in `round2.Commitments[self]` and the
`round2.Decommitment` are the pair returned by one `Commit` call, made under
`HashForID(SelfID)` right after the chain key is sampled, on the ordered list
`RIDs[self], ChainKeys[self], VSSPolynomials[self], SchnorrRand.Commitment(),
ElGamalPublic[self], Pedersen[self].N(), Pedersen[self].S(), Pedersen[self].T()`. -/
theorem Finalize_commitment_binds_round2 (E : Externals Ty) (r : round1Prime Ty)
    (out : List (Message Ty)) (rnd : Ty.Entropy)
    (hok : (r.Finalize E out rnd).err = none) :
    ∃ r2 rid chainKey vss elGamal ped c,
      (r.Finalize E out rnd).session = .round2 r2 ∧
      r2.RIDs.lookup (E.SelfID r2.Helper) = some rid ∧
      r2.ChainKeys.lookup (E.SelfID r2.Helper) = some chainKey ∧
      r2.VSSPolynomials.lookup (E.SelfID r2.Helper) = some vss ∧
      r2.ElGamalPublic.lookup (E.SelfID r2.Helper) = some elGamal ∧
      r2.Pedersen.lookup (E.SelfID r2.Helper) = some ped ∧
      r2.Commitments.lookup (E.SelfID r2.Helper) = some c ∧
      E.Commit (E.HashForID r2.Helper (E.SelfID r2.Helper))
          [.rid rid, .rid chainKey, .exponent vss,
           .schCommitment (E.SchCommitment r2.SchnorrRand), .point elGamal,
           .modulus (E.PedersenN ped), .nat (E.PedersenS ped), .nat (E.PedersenT ped)]
          (chainKeyDraw E r rnd).2
        = (.ok (c, r2.Decommitment), (r.Finalize E out rnd).rnd) := by
  obtain ⟨r2, hs⟩ := Finalize_ok_round2 hok
  obtain ⟨rid, ck, c, d, _, _, h3, _, _, _, h7⟩ := Finalize_round2_inv hs
  subst h7
  exact ⟨_, rid, ck, _, _, _, c, hs, lookup_singleton_self _ _, lookup_singleton_self _ _,
    lookup_singleton_self _ _, lookup_singleton_self _ _, lookup_singleton_self _ _,
    lookup_singleton_self _ _, h3⟩

/-- Witness of `Finalize_commitment_binds_round2`: the refresh-mode round of the small
instance. -/
theorem Finalize_commitment_binds_round2_witness :
    (toyRefreshRound.Finalize toyExternals [] [1, 2, 3, 4, 5, 6, 7]).err = none ∧
    ∃ r2 rid chainKey vss elGamal ped c,
      (toyRefreshRound.Finalize toyExternals [] [1, 2, 3, 4, 5, 6, 7]).session = .round2 r2 ∧
      r2.RIDs.lookup (toyExternals.SelfID r2.Helper) = some rid ∧
      r2.ChainKeys.lookup (toyExternals.SelfID r2.Helper) = some chainKey ∧
      r2.VSSPolynomials.lookup (toyExternals.SelfID r2.Helper) = some vss ∧
      r2.ElGamalPublic.lookup (toyExternals.SelfID r2.Helper) = some elGamal ∧
      r2.Pedersen.lookup (toyExternals.SelfID r2.Helper) = some ped ∧
      r2.Commitments.lookup (toyExternals.SelfID r2.Helper) = some c ∧
      toyExternals.Commit (toyExternals.HashForID r2.Helper (toyExternals.SelfID r2.Helper))
          [.rid rid, .rid chainKey, .exponent vss,
           .schCommitment (toyExternals.SchCommitment r2.SchnorrRand), .point elGamal,
           .modulus (toyExternals.PedersenN ped), .nat (toyExternals.PedersenS ped),
           .nat (toyExternals.PedersenT ped)]
          (chainKeyDraw toyExternals toyRefreshRound [1, 2, 3, 4, 5, 6, 7]).2
        = (.ok (c, r2.Decommitment),
            (toyRefreshRound.Finalize toyExternals [] [1, 2, 3, 4, 5, 6, 7]).rnd) :=
  ⟨by decide, Finalize_commitment_binds_round2 toyExternals toyRefreshRound []
    [1, 2, 3, 4, 5, 6, 7] (by decide)⟩

/-- C10: for the round returned by `StartFromSecret` with Paillier secret key `secretKey`,
after a successful `Finalize`: `round2.PaillierSecret` is `secretKey`,
`round2.PaillierPublic[self]` is its public key, `(round2.Pedersen[self],
round2.PedersenSecret)` is the pair returned by its `GeneratePedersen`,
`(round2.ElGamalSecret, round2.ElGamalPublic[self])` is the pair returned by the one
`ScalarPointPair` call, and `round2` embeds the `round1` state of the `round1Prime`
unmodified. -/
theorem Finalize_key_material (E : Externals Ty) (info : Ty.Info) (pl : Ty.Pool)
    (c : Option (Config Ty)) (secretKey : Ty.PaillierSecretKey) (sessionID : List UInt8)
    (rnd0 rnd1 : Ty.Entropy) (r : round1Prime Ty) (out : List (Message Ty)) (rnd : Ty.Entropy)
    (hstart : StartFromSecret E info pl c secretKey sessionID rnd0
      = ((some (.round1Prime r), none), rnd1))
    (hok : (r.Finalize E out rnd).err = none) :
    ∃ r2 ped elGamal, (r.Finalize E out rnd).session = .round2 r2 ∧
      r2.PaillierSecret = secretKey ∧
      r2.PaillierPublic.lookup (E.SelfID r.Helper) = some (E.PublicKey secretKey) ∧
      r2.Pedersen.lookup (E.SelfID r.Helper) = some ped ∧
      (ped, r2.PedersenSecret) = (E.GeneratePedersen secretKey rnd).1 ∧
      r2.ElGamalPublic.lookup (E.SelfID r.Helper) = some elGamal ∧
      (r2.ElGamalSecret, elGamal)
        = (E.ScalarPointPair (E.GeneratePedersen secretKey rnd).2 (E.Group r.Helper)).1 ∧
      r2.toround1 = r.toround1 := by
  have hsk : r.secretKey = secretKey := by
    unfold StartFromSecret at hstart
    cases c <;> simp only at hstart <;> split at hstart <;>
      simp only [Prod.mk.injEq, Option.some.injEq, Session.round1Prime.injEq, reduceCtorEq,
        false_and, and_false] at hstart
    · rw [← hstart.1.1]
    · rw [← hstart.1.1]
  obtain ⟨r2, hs⟩ := Finalize_ok_round2 hok
  obtain ⟨rid, ck, c, d, _, _, _, _, _, _, h7⟩ := Finalize_round2_inv hs
  subst h7
  subst hsk
  exact ⟨_, _, _, hs, rfl, lookup_singleton_self _ _, lookup_singleton_self _ _, rfl,
    lookup_singleton_self _ _, rfl, rfl⟩

/-- Witness of `Finalize_key_material`: the refresh-mode round of the small instance. -/
theorem Finalize_key_material_witness :
    StartFromSecret toyExternals (some ("a", 1)) () (some toyConfig) (7 : Nat) [] [9]
        = ((some (.round1Prime toyRefreshRound), none), []) ∧
    (toyRefreshRound.Finalize toyExternals [] [1, 2, 3, 4, 5, 6, 7]).err = none ∧
    ∃ r2 ped elGamal,
      (toyRefreshRound.Finalize toyExternals [] [1, 2, 3, 4, 5, 6, 7]).session = .round2 r2 ∧
      r2.PaillierSecret = (7 : Nat) ∧
      r2.PaillierPublic.lookup (toyExternals.SelfID toyRefreshRound.Helper)
        = some (toyExternals.PublicKey (7 : Nat)) ∧
      r2.Pedersen.lookup (toyExternals.SelfID toyRefreshRound.Helper) = some ped ∧
      (ped, r2.PedersenSecret)
        = (toyExternals.GeneratePedersen (7 : Nat) [1, 2, 3, 4, 5, 6, 7]).1 ∧
      r2.ElGamalPublic.lookup (toyExternals.SelfID toyRefreshRound.Helper) = some elGamal ∧
      (r2.ElGamalSecret, elGamal)
        = (toyExternals.ScalarPointPair
            (toyExternals.GeneratePedersen (7 : Nat) [1, 2, 3, 4, 5, 6, 7]).2
            (toyExternals.Group toyRefreshRound.Helper)).1 ∧
      r2.toround1 = toyRefreshRound.toround1 :=
  ⟨rfl, by decide, Finalize_key_material toyExternals (some ("a", 1)) () (some toyConfig)
    (7 : Nat) [] [9] [] toyRefreshRound [] [1, 2, 3, 4, 5, 6, 7] rfl (by decide)⟩

/-- C7: `Finalize` either returns a `round2` with a nil error after appending its one
broadcast to the outbound channel, or returns a non-nil error together with the same
`round1Prime` and leaves the outbound channel as it was.  In particular a failure of the RID
sampling, of the chain-key sampling or of `Commit` returns its own error with nothing written,
and a refused broadcast returns the transport's error unchanged. -/
theorem Finalize_all_or_nothing (E : Externals Ty) (r : round1Prime Ty)
    (out : List (Message Ty)) (rnd : Ty.Entropy) :
    ((∃ r2 c, (r.Finalize E out rnd).session = .round2 r2 ∧
        (r.Finalize E out rnd).err = none ∧
        (r.Finalize E out rnd).out = out ++ [commitmentMessage E r c]) ∨
      (∃ e, (r.Finalize E out rnd).session = .round1Prime r ∧
        (r.Finalize E out rnd).err = some e ∧
        (r.Finalize E out rnd).out = out)) ∧
    (∀ e, (ridDraw E r rnd).1 = .error e →
      r.Finalize E out rnd
        = { session := .round1Prime r, err := some (.new "failed to sample Rho"), out := out,
            rnd := (ridDraw E r rnd).2 }) ∧
    (∀ rid e, (ridDraw E r rnd).1 = .ok rid → (chainKeyDraw E r rnd).1 = .error e →
      r.Finalize E out rnd
        = { session := .round1Prime r, err := some (.new "failed to sample c"), out := out,
            rnd := (chainKeyDraw E r rnd).2 }) ∧
    (∀ rid chainKey e rnd3, (ridDraw E r rnd).1 = .ok rid →
      (chainKeyDraw E r rnd).1 = .ok chainKey →
      E.Commit (E.HashForID r.Helper (E.SelfID r.Helper))
        (commitTuple E rid chainKey (E.NewPolynomialExponent r.VSSSecret)
          (schnorrDraw E r rnd).1 (elGamalDraw E r rnd).1.2 (pedersenDraw E r rnd).1.1)
        (chainKeyDraw E r rnd).2 = (.error e, rnd3) →
      r.Finalize E out rnd
        = { session := .round1Prime r, err := some (.new "failed to commit"), out := out,
            rnd := rnd3 }) ∧
    (∀ rid chainKey c d rnd3 e out1, (ridDraw E r rnd).1 = .ok rid →
      (chainKeyDraw E r rnd).1 = .ok chainKey →
      E.Commit (E.HashForID r.Helper (E.SelfID r.Helper))
        (commitTuple E rid chainKey (E.NewPolynomialExponent r.VSSSecret)
          (schnorrDraw E r rnd).1 (elGamalDraw E r rnd).1.2 (pedersenDraw E r rnd).1.1)
        (chainKeyDraw E r rnd).2 = (.ok (c, d), rnd3) →
      BroadcastMessage E r.Helper out { Commitment := c } = (some e, out1) →
      out1 = out ∧
      r.Finalize E out rnd
        = { session := .round1Prime r, err := some e, out := out, rnd := rnd3 }) := by
  simp only [ridDraw, chainKeyDraw, schnorrDraw, elGamalDraw, pedersenDraw, commitTuple,
    commitmentMessage, round1Prime.Finalize]
  generalize E.NewRID _ = p1
  obtain ⟨a1, s1⟩ := p1
  cases a1 with
  | error e1 => simp
  | ok rid =>
    simp only
    generalize E.NewRID s1 = p2
    obtain ⟨a2, s2⟩ := p2
    cases a2 with
    | error e2 => simp
    | ok ck =>
      simp only
      generalize h3 : E.Commit _ _ s2 = p3
      obtain ⟨a3, s3⟩ := p3
      cases a3 with
      | error e3 =>
        simp
        constructor <;> intros <;> subst_vars <;> simp_all
      | ok cd =>
        obtain ⟨c, d⟩ := cd
        simp only [BroadcastMessage]
        cases hsend : E.SendError r.Helper out with
        | some e4 =>
          simp
          constructor <;> intros <;> subst_vars <;> simp_all
        | none =>
          simp
          intros
          subst_vars
          simp_all

/-- Witness of `Finalize_all_or_nothing`: on entropy `1, 2, 3` the RID sampling of the small
instance fails, the round is returned with the sampling error and nothing is written. -/
theorem Finalize_all_or_nothing_witness :
    (ridDraw toyExternals toyRefreshRound [1, 2, 3]).1 = .error (.new "EOF") ∧
    toyRefreshRound.Finalize toyExternals [] [1, 2, 3]
      = { session := .round1Prime toyRefreshRound,
          err := some (.new "failed to sample Rho"), out := [],
          rnd := (ridDraw toyExternals toyRefreshRound [1, 2, 3]).2 } :=
  ⟨rfl, (Finalize_all_or_nothing toyExternals toyRefreshRound [] [1, 2, 3]).2.1
    (.new "EOF") rfl⟩

end Keygen
